import Mathlib

/-
Verification of the jarvis StreamDeck core: the key-canvas renderer
(src/jarvis/ui/render.py, duplicated in src/jarvis/render/render.py), the
layout state machine (switch_layout) and the input dispatcher (key_change)
(src/jarvis/core/logic.py, duplicated in src/jarvis/ui/logic.py; the two
copies are line-identical in the functions modelled here).

Modelling conventions:
- Python machine integers are Int; Python floor division (//) is Int.fdiv.
- Optional values are Option; a Python dict with optional string keys is a
  structure of Option fields; insertion-ordered dicts are association lists.
- Python exceptions escaping a function are modelled by Except / an
  explicit Option String exception slot next to the mutated state, since a
  Python exception does not roll back prior global-state writes.
- External collaborators (PIL, PILHelper, textwrap, the StreamDeck device)
  are deterministic pure functions; their outputs are kept symbolic where
  the code treats them as opaque (icon bytes, composed images), and the
  metrics the code actually inspects (font bounding boxes, key format,
  file existence) are explicit data.
-/

namespace Jarvis

/-- Pixel bounding box as returned by PIL ImageFont.getbbox:
(left, top, right, bottom). -/
structure BBox where
  left : Int
  top : Int
  right : Int
  bottom : Int
deriving DecidableEq, Repr

/-- A loaded font object, abstracted by the only metrics render_keys queries:
getbbox of the sample glyph character a and of the tall+descender pair Ay. -/
structure Font where
  bboxA : BBox
  bboxAy : BBox
deriving DecidableEq, Repr

/-- Width in pixels of the representative glyph:
sample_bbox[2] - sample_bbox[0] in render_keys. -/
def avg_char_width (font : Font) : Int :=
  font.bboxA.right - font.bboxA.left

/-- Line height: line_bbox[3] - line_bbox[1] of getbbox of the pair Ay. -/
def line_height_of (font : Font) : Int :=
  font.bboxAy.bottom - font.bboxAy.top

/-- Device key image format (deck.key_image_format of the Device Adapter):
width and height in pixels of one key canvas. -/
structure KeyFormat where
  width : Int
  height : Int
deriving DecidableEq, Repr

/-- One draw.text invocation recorded symbolically: position, the text
drawn, the font object used, the anchor string and the fill color. -/
structure TextDraw where
  x : Int
  y : Int
  text : String
  font : Font
  anchor : String
  fill : String
deriving DecidableEq, Repr

/-- The base canvas produced by PILHelper before any text is drawn: either
a scaled icon composed over a background with given margins
(create_scaled_key_image) or a solid background (create_key_image). -/
inductive KeyImageBase where
  | scaledIcon (iconData : Nat) (margins : Int × Int × Int × Int) (background : String)
  | solid (background : String)
deriving DecidableEq, Repr

/-- A fully composed key canvas: base image plus the list of text draws, in
draw order. -/
structure RenderedKey where
  base : KeyImageBase
  texts : List TextDraw
deriving DecidableEq, Repr

/-- Result of PILHelper.to_native_key_format: a deterministic pure function
of the deck key format and the composed image, kept symbolic as the pair of
its inputs; two native pixel buffers are byte-identical exactly when these
pairs are equal. -/
structure NativeImage where
  format : KeyFormat
  image : RenderedKey
deriving DecidableEq, Repr

/-- PILHelper.to_native_key_format, symbolically. -/
def to_native_key_format (fmt : KeyFormat) (img : RenderedKey) : NativeImage :=
  ⟨fmt, img⟩

/-- Python slice s[:stop] for an Int stop: a negative stop counts from the
end, clamped at zero. -/
def pySliceTo (s : String) (stop : Int) : String :=
  if stop < 0 then s.take (s.length - (-stop).toNat)
  else s.take stop.toNat

/-- Python truthiness of an Optional[str]: None and the empty string are
falsy. -/
def pyTruthyStr : Option String → Bool
  | none => false
  | some s => !s.isEmpty

/-- An Action bound into a KeyConfig: either the closure returned by
switch_layout (capturing the target layout name), or one of the out-of-scope
OS-automation callables, abstracted by an identifying tag and whether the
call raises; those external actions do not touch the controller state. -/
inductive Action where
  | switchTo (layout_name : String)
  | external (tag : Nat) (raises : Bool)
deriving DecidableEq, Repr

/-- A KeyConfig dict: the optional entries label, icon, color, labelcolor,
action that render_layout and key_change read. -/
structure KeyConfig where
  label : Option String := none
  icon : Option String := none
  color : Option String := none
  labelcolor : Option String := none
  action : Option Action := none
deriving DecidableEq, Repr

/-- A Layout: insertion-ordered mapping from key index to KeyConfig. -/
abbrev Layout := List (Nat × KeyConfig)

/-- The registry of layouts: insertion-ordered mapping from layout name to
Layout. -/
abbrev Registry := List (String × Layout)

/-- StreamDeck device handle state: whether deck.is_open() and its key
image format. -/
structure DeckState where
  isOpen : Bool
  format : KeyFormat
deriving DecidableEq, Repr

/-- The module-level globals of ui/render.py, set by
config.initialization.init_module, together with the ambient pure
collaborators: whether ImageFont.truetype(FONT_DIR, 16) succeeds, the two
candidate font objects, the icon directory contents (file name to file
bytes, abstracted to a Nat content id; None when the file does not exist),
and textwrap.wrap. -/
structure RenderEnv where
  FONT_DIR : Option String
  ICONS_DIR : Option String
  USER_HOME : Option String
  PROJECTS_DIR : Option String
  OBSIDIAN_VAULTS : Option (List (String × String))
  KEYRING_PW : Option String
  fontLoadOk : Bool
  customFont : Font
  defaultFont : Font
  iconFiles : String → Option Nat
  wrap : String → Int → List String

/-- The font object render_keys actually draws with: the custom truetype
font, falling back to ImageFont.load_default() on OSError. -/
def loadedFont (env : RenderEnv) : Font :=
  if env.fontLoadOk then env.customFont else env.defaultFont

/-- The image-composition part of render_keys (ui/render.py lines 111-216):
everything before the final deck.set_key_image call. Errors: RuntimeError
when the module globals are unset, ZeroDivisionError when the sample glyph
has zero width (Python would raise on width // avg_char_width). -/
def render_keys_image (env : RenderEnv) (fmt : KeyFormat)
    (label icon : Option String) (color labelcolor : String) :
    Except String RenderedKey :=
  if env.FONT_DIR.isNone || env.ICONS_DIR.isNone then
    .error "RuntimeError"
  else
    let font := loadedFont env
    if pyTruthyStr label && pyTruthyStr icon then
      let labelStr := label.getD ""
      let iconStr := icon.getD ""
      let base : KeyImageBase :=
        match env.iconFiles iconStr with
        | some data => .scaledIcon data (10, 0, 30, 0) color
        | none => .solid "red"
      let avgCharWidth := avg_char_width font
      if avgCharWidth = 0 then .error "ZeroDivisionError"
      else
        let charsPerLine : Int := max 1 (Int.fdiv fmt.width avgCharWidth)
        let displayText :=
          if (labelStr.length : Int) > charsPerLine then
            pySliceTo labelStr (charsPerLine - 3) ++ "..."
          else labelStr
        let textY : Int := fmt.height - 20
        .ok ⟨base, [⟨Int.fdiv fmt.width 2, textY, displayText, font, "mt", labelcolor⟩]⟩
    else if pyTruthyStr label then
      let labelStr := label.getD ""
      let avgCharWidth := avg_char_width font
      if avgCharWidth = 0 then .error "ZeroDivisionError"
      else
        let charsPerLine : Int := max 1 (Int.fdiv fmt.width avgCharWidth)
        let wrappedLines := env.wrap labelStr charsPerLine
        let lineHeight := line_height_of font
        let totalTextHeight : Int := wrappedLines.length * lineHeight
        let startY := Int.fdiv (fmt.height - totalTextHeight) 2
        let texts := wrappedLines.enum.map fun p =>
          ⟨Int.fdiv fmt.width 2, startY + (p.1 : Int) * lineHeight, p.2, font, "mt", labelcolor⟩
        .ok ⟨.solid color, texts⟩
    else if pyTruthyStr icon then
      let iconStr := icon.getD ""
      match env.iconFiles iconStr with
      | some data => .ok ⟨.scaledIcon data (5, 5, 5, 5) color, []⟩
      | none => .ok ⟨.solid "red", []⟩
    else
      .ok ⟨.solid (if color.isEmpty then "red" else color), []⟩

/-- Device-visible operations plus invocation markers for the out-of-scope
external actions, in the order they happen. -/
inductive Effect where
  | reset
  | setBrightness (level : Int)
  | setKeyImage (key : Nat) (image : NativeImage)
  | actionRan (tag : Nat)
deriving DecidableEq, Repr

/-- render_keys of ui/render.py: compose the image, then push it with
deck.set_key_image(key, PILHelper.to_native_key_format(deck, key_image)). -/
def render_keys (env : RenderEnv) (fmt : KeyFormat) (key : Nat)
    (label icon : Option String) (color labelcolor : String) :
    Except String (List Effect) :=
  (render_keys_image env fmt label icon color labelcolor).map fun img =>
    [.setKeyImage key (to_native_key_format fmt img)]

/-- The module-level mutable globals of core/logic.py: current_layout,
layouts and deck. -/
structure LogicState where
  current_layout : Option String
  layouts : Option Registry
  deck : Option DeckState
deriving DecidableEq, Repr

/-- Outcome of running one Python call against the globals: the globals
afterwards, the device/action effects emitted before any raise, and the
exception that escaped the call, if one did. A raise does not undo earlier
global writes or device calls. -/
structure StepResult where
  state : LogicState
  effects : List Effect
  exn : Option String
deriving DecidableEq, Repr

/-- render_layout of ui/render.py, the per-key loop: for key, config in
layout.items() call render_keys with config.get defaults; a raise from
render_keys aborts the loop and escapes. -/
def render_layout_keys (env : RenderEnv) (fmt : KeyFormat) :
    Layout → List Effect × Option String
  | [] => ([], none)
  | (key, config) :: rest =>
    match render_keys env fmt key config.label config.icon
        (config.color.getD "black") (config.labelcolor.getD "white") with
    | .error e => ([], some e)
    | .ok effs =>
      let r := render_layout_keys env fmt rest
      (effs ++ r.1, r.2)

/-- render_layout of ui/render.py (lines 259-276): return early when the
deck is None or not open; otherwise deck.reset(), deck.set_brightness(100),
then render every configured key in insertion order. -/
def render_layout (env : RenderEnv) (deck : Option DeckState) (layout : Layout) :
    List Effect × Option String :=
  match deck with
  | none => ([], none)
  | some d =>
    if !d.isOpen then ([], none)
    else
      let r := render_layout_keys env d.format layout
      (.reset :: .setBrightness 100 :: r.1, r.2)

/-- switch_layout of core/logic.py: the factory only binds the target name
into a deferred Action; nothing executes at construction time. -/
def switch_layout (layout_name : String) : Action :=
  .switchTo layout_name

/-- Invoking one Action against the current globals. The switch_layout
wrapper body (core/logic.py lines 124-152): if layouts is truthy and the
name is a member, set current_layout and render that layout (a raise inside
render_layout escapes after the global write); otherwise silently no-op.
External actions leave the controller state alone; a raising one raises. -/
def invokeAction (env : RenderEnv) (st : LogicState) : Action → StepResult
  | .switchTo layout_name =>
    match st.layouts with
    | none => ⟨st, [], none⟩
    | some reg =>
      if reg.isEmpty then ⟨st, [], none⟩
      else
        match reg.lookup layout_name with
        | none => ⟨st, [], none⟩
        | some layout =>
          let stNew := { st with current_layout := some layout_name }
          let r := render_layout env st.deck layout
          ⟨stNew, r.1, r.2⟩
  | .external tag raises =>
    if raises then ⟨st, [], some "Exception"⟩
    else ⟨st, [.actionRan tag], none⟩

/-- key_change of core/logic.py (lines 197-241), the input dispatcher.
Release events return at once. The guard
not (layouts and current_layout and key in layouts[current_layout])
evaluates left to right with Python truthiness; note that
layouts[current_layout] raises an uncaught KeyError when current_layout is
truthy but not a key of layouts, since the guard sits before the try block.
Once the guard passes, the try block fetches the action (a missing action
entry is a KeyError caught by the bare except) and invokes it; any
exception from the invocation is swallowed, keeping whatever state writes
and effects already happened. -/
def key_change (env : RenderEnv) (st : LogicState) (key : Nat) (state : Bool) :
    StepResult :=
  if !state then ⟨st, [], none⟩
  else
    match st.layouts with
    | none => ⟨st, [], none⟩
    | some reg =>
      if reg.isEmpty then ⟨st, [], none⟩
      else
        match st.current_layout with
        | none => ⟨st, [], none⟩
        | some cl =>
          if cl.isEmpty then ⟨st, [], none⟩
          else
            match reg.lookup cl with
            | none => ⟨st, [], some "KeyError"⟩
            | some layout =>
              match layout.lookup key with
              | none => ⟨st, [], none⟩
              | some config =>
                match config.action with
                | none => ⟨st, [], none⟩
                | some a =>
                  let r := invokeAction env st a
                  ⟨r.state, r.effects, none⟩

/-- initialize_logic of ui/logic.py (lines 75-111): plain assignment of the
three globals, with no validation. -/
def initialize_logic (deck_instance : Option DeckState) (layouts_dict : Registry)
    (initial_layout : String) : LogicState :=
  ⟨some initial_layout, some layouts_dict, deck_instance⟩

/-- The state reached after dispatching one raw key event. -/
def dispatchStep (env : RenderEnv) (st : LogicState) (ev : Nat × Bool) : LogicState :=
  (key_change env st ev.1 ev.2).state

/-- The state reached after dispatching a sequence of raw key events. -/
def runEvents (env : RenderEnv) (st : LogicState) (evs : List (Nat × Bool)) : LogicState :=
  evs.foldl (dispatchStep env) st

/-- Classifier of effects, used to state call-count and call-order
properties about the device without fixing the pixel payloads. -/
inductive EffectKind where
  | resetK
  | brightnessK
  | keyImageK (key : Nat)
  | actionK (tag : Nat)
deriving DecidableEq, Repr

/-- The kind of one effect. -/
def Effect.kind : Effect → EffectKind
  | .reset => .resetK
  | .setBrightness _ => .brightnessK
  | .setKeyImage k _ => .keyImageK k
  | .actionRan t => .actionK t

/-- Controller-state invariant of claim C9: the layouts table is the fixed
registry and the current layout name is bound in it. -/
def GoodState (reg : Registry) (st : LogicState) : Prop :=
  st.layouts = some reg ∧
    ∃ cl, st.current_layout = some cl ∧ (reg.lookup cl).isSome

/-- A concrete font fixture: the sample glyph a is 6 pixels wide, the pair
Ay spans from -2 to 18 vertically (line height 20). -/
def sampleFont : Font := ⟨⟨0, 0, 6, 12⟩, ⟨0, -2, 15, 18⟩⟩

/-- A concrete initialized render environment used by the witnesses: custom
font loaded, one icon file named back.png present, and a wrap function that
keeps the label on a single line. -/
def sampleEnv : RenderEnv where
  FONT_DIR := some "fonts/Roboto-Regular.ttf"
  ICONS_DIR := some "icons"
  USER_HOME := some "home"
  PROJECTS_DIR := some "projects"
  OBSIDIAN_VAULTS := some []
  KEYRING_PW := some "pw"
  fontLoadOk := true
  customFont := sampleFont
  defaultFont := ⟨⟨0, 0, 7, 11⟩, ⟨0, 0, 11, 13⟩⟩
  iconFiles := fun n => if n = "back.png" then some 7 else none
  wrap := fun s _ => [s]

/-- The list of lines textwrap.wrap produces in the label-only render mode:
the label wrapped at width chars_per_line. -/
def wrapped_lines_of (env : RenderEnv) (fmt : KeyFormat) (label : String) :
    List String :=
  env.wrap label (max 1 (Int.fdiv fmt.width (avg_char_width (loadedFont env))))

/-- A second environment agreeing with sampleEnv on everything the renderer
reads (font, wrap, icon contents, directory presence) but differing in the
unrelated module globals, for the determinism witness. -/
def sampleEnvB : RenderEnv :=
  { sampleEnv with
    KEYRING_PW := some "other"
    USER_HOME := none
    PROJECTS_DIR := none
    OBSIDIAN_VAULTS := none
    FONT_DIR := some "elsewhere/Roboto.ttf"
    ICONS_DIR := some "other-icons" }

/-- A font whose sample glyph is 2 pixels wide, for the C5 counterexample
on a 1-pixel-wide canvas. -/
def cexFont : Font := ⟨⟨0, 0, 2, 12⟩, ⟨0, 0, 12, 14⟩⟩

/-- Environment for the C5 counterexample: every icon file resolves. -/
def cexEnv : RenderEnv :=
  { sampleEnv with customFont := cexFont, iconFiles := fun _ => some 3 }

/-- A successful association-list lookup forces the list to be nonempty. -/
theorem lookup_ne_nil_isEmpty {α β : Type} [BEq α] {l : List (α × β)} {a : α}
    {b : β} (h : l.lookup a = some b) : l.isEmpty = false := by
  cases l with
  | nil => simp [List.lookup] at h
  | cons x xs => rfl

/-- Claim C7: dispatching a release event (pressed = false) never invokes
any action and touches nothing: key_change returns unchanged state, an
empty effect list and no exception, for every dispatcher state and key,
before any layout lookup or action call. -/
theorem C7_release_discarded (env : RenderEnv) (st : LogicState) (key : Nat) :
    key_change env st key false = ⟨st, [], none⟩ := rfl

/-- Claim C3: invoking the action produced by switch_layout(name) when name
is not bound in the layouts table (including the table being unset) leaves
current_layout unchanged and performs zero device operations: no reset, no
set_brightness, no set_key_image. -/
theorem C3_switch_unknown_noop (env : RenderEnv) (st : LogicState) (name : String)
    (h : ∀ reg, st.layouts = some reg → reg.lookup name = none) :
    invokeAction env st (switch_layout name) = ⟨st, [], none⟩ := by
  cases hl : st.layouts with
  | none => simp [invokeAction, switch_layout, hl]
  | some reg => simp [invokeAction, switch_layout, hl, h reg hl]

/-- Witness for C3: a registry holding only a layout named main, a switch
action bound to the absent name missing. -/
theorem C3_switch_unknown_noop_witness :
    invokeAction sampleEnv ⟨some "main", some [("main", [])], none⟩
        (switch_layout "missing") =
      ⟨⟨some "main", some [("main", [])], none⟩, [], none⟩ :=
  C3_switch_unknown_noop sampleEnv ⟨some "main", some [("main", [])], none⟩
    "missing" (fun reg hreg => by injection hreg with h; subst h; decide)

/-- Claim C10: invoking the action produced by switch_layout(name) for a
name bound in the layouts table while the device handle is None or not open
still writes current_layout, with zero device operations: only the redraw
is conditioned on device availability. -/
theorem C10_switch_without_device (env : RenderEnv) (st : LogicState)
    (reg : Registry) (name : String) (layout : Layout)
    (hlay : st.layouts = some reg) (hfind : reg.lookup name = some layout)
    (hdeck : st.deck = none ∨ ∃ d, st.deck = some d ∧ d.isOpen = false) :
    invokeAction env st (switch_layout name) =
      ⟨{ st with current_layout := some name }, [], none⟩ := by
  have hne : reg.isEmpty = false := lookup_ne_nil_isEmpty hfind
  rcases hdeck with hd | ⟨d, hd, hopen⟩
  · simp [invokeAction, switch_layout, hlay, hne, hfind, render_layout, hd]
  · simp [invokeAction, switch_layout, hlay, hne, hfind, render_layout, hd, hopen]

/-- Witness for C10: the device handle is present but closed; the switch
still lands in current_layout and the device is untouched. -/
theorem C10_switch_without_device_witness :
    invokeAction sampleEnv
        ⟨some "main", some [("main", []), ("other", [(0, {})])], some ⟨false, ⟨96, 96⟩⟩⟩
        (switch_layout "other") =
      ⟨⟨some "other", some [("main", []), ("other", [(0, {})])], some ⟨false, ⟨96, 96⟩⟩⟩,
        [], none⟩ :=
  C10_switch_without_device sampleEnv
    ⟨some "main", some [("main", []), ("other", [(0, {})])], some ⟨false, ⟨96, 96⟩⟩⟩
    [("main", []), ("other", [(0, {})])] "other" [(0, {})] rfl (by decide)
    (Or.inr ⟨⟨false, ⟨96, 96⟩⟩, rfl, rfl⟩)

/-- Claim C1: an action bound to key k1 that raises when invoked is caught
and suppressed at the dispatch boundary (state unchanged, no effects, no
escaping exception), and a press on a different key k2 whose action does
not raise still runs that action normally. -/
theorem C1_action_failure_isolated (env : RenderEnv) (st : LogicState)
    (reg : Registry) (cl : String) (layout : Layout) (k1 k2 t1 t2 : Nat)
    (cfg1 cfg2 : KeyConfig)
    (hlay : st.layouts = some reg) (hcl : st.current_layout = some cl)
    (hclne : cl.isEmpty = false) (hfind : reg.lookup cl = some layout)
    (hk : k1 ≠ k2)
    (h1 : layout.lookup k1 = some cfg1)
    (ha1 : cfg1.action = some (.external t1 true))
    (h2 : layout.lookup k2 = some cfg2)
    (ha2 : cfg2.action = some (.external t2 false)) :
    key_change env st k1 true = ⟨st, [], none⟩ ∧
      key_change env st k2 true = ⟨st, [.actionRan t2], none⟩ := by
  have hne : reg.isEmpty = false := lookup_ne_nil_isEmpty hfind
  constructor
  · simp [key_change, hlay, hne, hcl, hclne, hfind, h1, ha1, invokeAction]
  · simp [key_change, hlay, hne, hcl, hclne, hfind, h2, ha2, invokeAction]

/-- Witness for C1: key 3 of the active layout always raises, key 4 runs an
external action with tag 9. -/
theorem C1_action_failure_isolated_witness :
    key_change sampleEnv
        ⟨some "main", some [("main", [(3, { action := some (.external 5 true) }),
          (4, { action := some (.external 9 false) })])], none⟩ 3 true =
      ⟨⟨some "main", some [("main", [(3, { action := some (.external 5 true) }),
          (4, { action := some (.external 9 false) })])], none⟩, [], none⟩ ∧
    key_change sampleEnv
        ⟨some "main", some [("main", [(3, { action := some (.external 5 true) }),
          (4, { action := some (.external 9 false) })])], none⟩ 4 true =
      ⟨⟨some "main", some [("main", [(3, { action := some (.external 5 true) }),
          (4, { action := some (.external 9 false) })])], none⟩,
        [.actionRan 9], none⟩ :=
  C1_action_failure_isolated sampleEnv
    ⟨some "main", some [("main", [(3, { action := some (.external 5 true) }),
      (4, { action := some (.external 9 false) })])], none⟩
    [("main", [(3, { action := some (.external 5 true) }),
      (4, { action := some (.external 9 false) })])]
    "main" [(3, { action := some (.external 5 true) }),
      (4, { action := some (.external 9 false) })] 3 4 5 9
    { action := some (.external 5 true) } { action := some (.external 9 false) }
    rfl rfl (by decide) (by decide) (by decide) (by decide) rfl (by decide) rfl

/-- Claim C2 counterexample: in the state where the layouts table is the
nonempty registry binding only the name a and current_layout is the
dangling name b (so no key has a KeyConfig entry in any current layout),
dispatching a press on key 0 raises an uncaught KeyError: the guard
expression key in layouts[current_layout] indexes the table before the try
block. The claim says nothing is raised, so it is false here. -/
theorem C2_counterexample :
    (([(("a" : String), ([] : Layout))] : Registry).lookup "b" = none) ∧
      key_change sampleEnv ⟨some "b", some [("a", [])], none⟩ 0 true =
        ⟨⟨some "b", some [("a", [])], none⟩, [], some "KeyError"⟩ := by
  constructor
  · decide
  · rfl

/-- Claim C2 (amended): provided the current layout name, whenever it is
truthy while the layouts table is truthy, is bound in the table, a press on
a key with no KeyConfig entry in the current layout invokes no action and
raises nothing: the event is discarded. (The unamended claim fails when the
current layout name dangles: the guard then raises KeyError, see the
counterexample.) -/
theorem C2_amended_unbound_key_discarded (env : RenderEnv) (st : LogicState)
    (k : Nat)
    (hcur : ∀ reg cl, st.layouts = some reg → st.current_layout = some cl →
      cl.isEmpty = false → reg.isEmpty = false → (reg.lookup cl).isSome)
    (hnokey : ∀ reg cl layout, st.layouts = some reg →
      st.current_layout = some cl → reg.lookup cl = some layout →
      layout.lookup k = none) :
    key_change env st k true = ⟨st, [], none⟩ := by
  cases hl : st.layouts with
  | none => simp [key_change, hl]
  | some reg =>
    cases he : reg.isEmpty with
    | true => simp [key_change, hl, he]
    | false =>
      cases hc : st.current_layout with
      | none => simp [key_change, hl, he, hc]
      | some cl =>
        cases hece : cl.isEmpty with
        | true => simp [key_change, hl, he, hc, hece]
        | false =>
          have hsome := hcur reg cl hl hc hece he
          cases hf : reg.lookup cl with
          | none => rw [hf] at hsome; simp at hsome
          | some layout =>
            have hnk := hnokey reg cl layout hl hc hf
            simp [key_change, hl, he, hc, hece, hf, hnk]

/-- Witness for the amended C2: a one-layout registry, the current layout
bound, and a press on key 7 which has no entry. -/
theorem C2_amended_unbound_key_discarded_witness :
    key_change sampleEnv ⟨some "main", some [("main", [(0, {})])], none⟩ 7 true =
      ⟨⟨some "main", some [("main", [(0, {})])], none⟩, [], none⟩ :=
  C2_amended_unbound_key_discarded sampleEnv
    ⟨some "main", some [("main", [(0, {})])], none⟩ 7
    (fun reg cl hreg hcl _ _ => by
      injection hreg with h1; injection hcl with h2; subst h1; subst h2; decide)
    (fun reg cl layout hreg hcl hf => by
      injection hreg with h1; injection hcl with h2; subst h1; subst h2
      injection hf with h3; subst h3; decide)

/-- In an initialized render environment whose sample glyph has nonzero
width, image composition always succeeds. -/
theorem render_keys_image_ok (env : RenderEnv) (fmt : KeyFormat)
    (label icon : Option String) (color labelcolor : String)
    (hfd : env.FONT_DIR.isSome) (hid : env.ICONS_DIR.isSome)
    (havg : avg_char_width (loadedFont env) ≠ 0) :
    ∃ r, render_keys_image env fmt label icon color labelcolor = .ok r := by
  obtain ⟨fd, hfd⟩ := Option.isSome_iff_exists.mp hfd
  obtain ⟨idir, hid⟩ := Option.isSome_iff_exists.mp hid
  unfold render_keys_image
  simp only [hfd, hid, Option.isNone_some, Bool.or_self, Bool.false_eq_true,
    if_false]
  split
  · cases henv : env.iconFiles (icon.getD "") <;>
      simp [henv, havg]
  · split
    · simp [havg]
    · split
      · cases henv : env.iconFiles (icon.getD "") <;> simp [henv]
      · exact ⟨_, rfl⟩

/-- render_keys in such an environment emits exactly one set_key_image for
its key. -/
theorem render_keys_one_image (env : RenderEnv) (fmt : KeyFormat) (key : Nat)
    (label icon : Option String) (color labelcolor : String)
    (hfd : env.FONT_DIR.isSome) (hid : env.ICONS_DIR.isSome)
    (havg : avg_char_width (loadedFont env) ≠ 0) :
    ∃ img, render_keys env fmt key label icon color labelcolor =
      .ok [.setKeyImage key (to_native_key_format fmt img)] := by
  obtain ⟨r, hr⟩ :=
    render_keys_image_ok env fmt label icon color labelcolor hfd hid havg
  exact ⟨r, by unfold render_keys; rw [hr]; rfl⟩

/-- The per-key loop of render_layout in such an environment finishes
without raising and emits exactly one set_key_image per configured key, in
layout order. -/
theorem render_layout_keys_spec (env : RenderEnv) (fmt : KeyFormat)
    (hfd : env.FONT_DIR.isSome) (hid : env.ICONS_DIR.isSome)
    (havg : avg_char_width (loadedFont env) ≠ 0) (layout : Layout) :
    (render_layout_keys env fmt layout).2 = none ∧
      (render_layout_keys env fmt layout).1.map Effect.kind =
        layout.map fun kc => EffectKind.keyImageK kc.1 := by
  induction layout with
  | nil => exact ⟨rfl, rfl⟩
  | cons kc rest ih =>
    obtain ⟨img, himg⟩ := render_keys_one_image env fmt kc.1 kc.2.label kc.2.icon
      (kc.2.color.getD "black") (kc.2.labelcolor.getD "white") hfd hid havg
    simp [render_layout_keys, himg, ih.1, ih.2, Effect.kind]

/-- Claim C4: invoking the action produced by switch_layout(name) for a
name bound in the layouts table, against an open device and an initialized
render environment, sets current_layout to name and performs exactly one
reset, then exactly one set_brightness, then exactly one set_key_image per
key index present in that layout, in that order, raising nothing. -/
theorem C4_switch_valid_full_redraw (env : RenderEnv) (st : LogicState)
    (reg : Registry) (name : String) (layout : Layout) (d : DeckState)
    (hlay : st.layouts = some reg) (hfind : reg.lookup name = some layout)
    (hdeck : st.deck = some d) (hopen : d.isOpen = true)
    (hfd : env.FONT_DIR.isSome) (hid : env.ICONS_DIR.isSome)
    (havg : avg_char_width (loadedFont env) ≠ 0) :
    (invokeAction env st (switch_layout name)).state =
        { st with current_layout := some name } ∧
      (invokeAction env st (switch_layout name)).exn = none ∧
      (invokeAction env st (switch_layout name)).effects.map Effect.kind =
        .resetK :: .brightnessK :: layout.map fun kc => .keyImageK kc.1 := by
  have hne : reg.isEmpty = false := lookup_ne_nil_isEmpty hfind
  have hspec := render_layout_keys_spec env d.format hfd hid havg layout
  refine ⟨?_, ?_, ?_⟩ <;>
    simp [invokeAction, switch_layout, hlay, hne, hfind, render_layout, hdeck,
      hopen, hspec.1, hspec.2, Effect.kind]

/-- Witness for C4: switching to a two-key layout on an open 96 by 96
device redraws exactly keys 0 and 5 after one reset and one brightness
call. -/
theorem C4_switch_valid_full_redraw_witness :
    ((invokeAction sampleEnv
        ⟨some "main", some [("main", []), ("other",
          [(0, { icon := some "back.png" }), (5, { label := some "git" })])],
          some ⟨true, ⟨96, 96⟩⟩⟩
        (switch_layout "other")).state =
      ⟨some "other", some [("main", []), ("other",
        [(0, { icon := some "back.png" }), (5, { label := some "git" })])],
        some ⟨true, ⟨96, 96⟩⟩⟩) ∧
    ((invokeAction sampleEnv
        ⟨some "main", some [("main", []), ("other",
          [(0, { icon := some "back.png" }), (5, { label := some "git" })])],
          some ⟨true, ⟨96, 96⟩⟩⟩
        (switch_layout "other")).exn = none) ∧
    ((invokeAction sampleEnv
        ⟨some "main", some [("main", []), ("other",
          [(0, { icon := some "back.png" }), (5, { label := some "git" })])],
          some ⟨true, ⟨96, 96⟩⟩⟩
        (switch_layout "other")).effects.map Effect.kind =
      [.resetK, .brightnessK, .keyImageK 0, .keyImageK 5]) := by
  have h := C4_switch_valid_full_redraw sampleEnv
    ⟨some "main", some [("main", []), ("other",
      [(0, { icon := some "back.png" }), (5, { label := some "git" })])],
      some ⟨true, ⟨96, 96⟩⟩⟩
    [("main", []), ("other",
      [(0, { icon := some "back.png" }), (5, { label := some "git" })])]
    "other" [(0, { icon := some "back.png" }), (5, { label := some "git" })]
    ⟨true, ⟨96, 96⟩⟩ rfl (by decide) rfl rfl rfl rfl (by decide)
  exact ⟨h.1, h.2.1, by rw [h.2.2]; rfl⟩

/-- Python slice s[:stop] for a nonnegative stop is an ordinary prefix. -/
theorem pySliceTo_nonneg (s : String) (stop : Int) (h : 0 ≤ stop) :
    pySliceTo s stop = s.take stop.toNat := by
  unfold pySliceTo
  rw [if_neg (by omega)]

/-- Claim C5 counterexample: on a 1-pixel-wide canvas with a 2-pixel-wide
sample glyph, the claim computes chars_per_line = floor(1/2) = 0, so with
the one-character label a it demands truncation (first 0 - 3 characters
followed by three dots, i.e. just the three dots, under either the
take-a-prefix or the Python-slice reading of a negative count). The code
clamps chars_per_line to max(1, 0) = 1 and draws the label a unmodified. -/
theorem C5_counterexample :
    (1 : Int) > Int.fdiv 1 (avg_char_width (loadedFont cexEnv)) ∧
      (render_keys_image cexEnv ⟨1, 96⟩ (some "a") (some "i.png") "black"
          "white").map (fun r => r.texts.map TextDraw.text) =
        Except.ok ["a"] ∧
      ("a" : String) ≠
        pySliceTo "a" (Int.fdiv 1 (avg_char_width (loadedFont cexEnv)) - 3)
          ++ "..." ∧
      ("a" : String) ≠
        "a".take (Int.fdiv 1 (avg_char_width (loadedFont cexEnv)) - 3).toNat
          ++ "..." := by
  refine ⟨by decide, ?_, by decide, by decide⟩
  rfl

/-- Claim C5 (amended): chars_per_line is max(1, floor(canvas_width /
average_glyph_width)) (the code clamps the quotient to at least 1);
provided that quotient is at least 3, a key with a resolvable icon and a
non-empty label draws, at the bottom anchor, the first chars_per_line - 3
characters of the label followed by three dots when the label is longer
than chars_per_line, and the label unmodified otherwise. -/
theorem C5_amended_icon_label_truncation (env : RenderEnv) (fmt : KeyFormat)
    (label icon color labelcolor : String) (iconData : Nat)
    (hfd : env.FONT_DIR.isSome) (hid : env.ICONS_DIR.isSome)
    (hlabel : label.isEmpty = false) (hicon : icon.isEmpty = false)
    (hres : env.iconFiles icon = some iconData)
    (hcpl : 3 ≤ Int.fdiv fmt.width (avg_char_width (loadedFont env))) :
    render_keys_image env fmt (some label) (some icon) color labelcolor =
      .ok ⟨.scaledIcon iconData (10, 0, 30, 0) color,
        [⟨Int.fdiv fmt.width 2, fmt.height - 20,
          if (label.length : Int) >
              Int.fdiv fmt.width (avg_char_width (loadedFont env)) then
            label.take
                (Int.fdiv fmt.width (avg_char_width (loadedFont env)) - 3).toNat
              ++ "..."
          else label,
          loadedFont env, "mt", labelcolor⟩]⟩ := by
  obtain ⟨fd, hfd⟩ := Option.isSome_iff_exists.mp hfd
  obtain ⟨idir, hid⟩ := Option.isSome_iff_exists.mp hid
  have havg : avg_char_width (loadedFont env) ≠ 0 := by
    intro h
    rw [h, Int.fdiv_zero] at hcpl
    omega
  have hmax : max 1 (Int.fdiv fmt.width (avg_char_width (loadedFont env))) =
      Int.fdiv fmt.width (avg_char_width (loadedFont env)) :=
    max_eq_right (by omega)
  have hslice :
      pySliceTo label
          (Int.fdiv fmt.width (avg_char_width (loadedFont env)) - 3) =
        label.take
          (Int.fdiv fmt.width (avg_char_width (loadedFont env)) - 3).toNat :=
    pySliceTo_nonneg _ _ (by omega)
  unfold render_keys_image
  simp [pyTruthyStr, hfd, hid, hlabel, hicon, hres, havg, hmax, hslice]

/-- Witness for the amended C5: a 20-character label on a 96 by 96 canvas
with a 6-pixel glyph (chars_per_line 16) is drawn truncated to 13
characters plus three dots. -/
theorem C5_amended_icon_label_truncation_witness :
    render_keys_image sampleEnv ⟨96, 96⟩ (some "supercalifragilistic")
        (some "back.png") "black" "white" =
      .ok ⟨.scaledIcon 7 (10, 0, 30, 0) "black",
        [⟨48, 76, "supercalifrag...", sampleFont, "mt", "white"⟩]⟩ := by
  rw [C5_amended_icon_label_truncation sampleEnv ⟨96, 96⟩
    "supercalifragilistic" "back.png" "black" "white" 7 rfl rfl (by decide)
    (by decide) (by decide) (by decide)]
  rfl

/-- Claim C6: in the label-only mode the number of drawn lines equals the
number of lines word-wrapping produces at width chars_per_line, and line i
has its top y-coordinate at (canvas_height - line_count*line_height)/2 +
i*line_height (Python floor division), with line_height taken from the
bounding box of the tall-plus-descender pair. -/
theorem C6_label_only_wrap_layout (env : RenderEnv) (fmt : KeyFormat)
    (label color labelcolor : String)
    (hfd : env.FONT_DIR.isSome) (hid : env.ICONS_DIR.isSome)
    (hlabel : label.isEmpty = false)
    (havg : avg_char_width (loadedFont env) ≠ 0) :
    ∃ r, render_keys_image env fmt (some label) none color labelcolor = .ok r ∧
      r.texts.length = (wrapped_lines_of env fmt label).length ∧
      ∀ i (h : i < r.texts.length),
        (r.texts.get ⟨i, h⟩).y =
          Int.fdiv (fmt.height -
              ((wrapped_lines_of env fmt label).length : Int) *
                line_height_of (loadedFont env)) 2 +
            (i : Int) * line_height_of (loadedFont env) := by
  obtain ⟨fd, hfd2⟩ := Option.isSome_iff_exists.mp hfd
  obtain ⟨idir, hid2⟩ := Option.isSome_iff_exists.mp hid
  refine ⟨⟨.solid color, (wrapped_lines_of env fmt label).enum.map fun p =>
      ⟨Int.fdiv fmt.width 2,
        Int.fdiv (fmt.height -
            ((wrapped_lines_of env fmt label).length : Int) *
              line_height_of (loadedFont env)) 2 +
          (p.1 : Int) * line_height_of (loadedFont env),
        p.2, loadedFont env, "mt", labelcolor⟩⟩, ?_, ?_, ?_⟩
  · unfold render_keys_image wrapped_lines_of
    simp [pyTruthyStr, hfd2, hid2, hlabel, havg]
  · simp
  · intro i h
    simp only [List.get_eq_getElem, List.getElem_map, List.getElem_enum]

/-- Witness for C6: the single-line wrap of the label git on a 96 by 96
canvas sits at y = (96 - 1*20)/2 = 38. -/
theorem C6_label_only_wrap_layout_witness :
    ∃ r, render_keys_image sampleEnv ⟨96, 96⟩ (some "git") none "blue"
        "white" = .ok r ∧
      r.texts.length = (wrapped_lines_of sampleEnv ⟨96, 96⟩ "git").length ∧
      ∀ i (h : i < r.texts.length),
        (r.texts.get ⟨i, h⟩).y =
          Int.fdiv ((96 : Int) -
              ((wrapped_lines_of sampleEnv ⟨96, 96⟩ "git").length : Int) *
                line_height_of (loadedFont sampleEnv)) 2 +
            (i : Int) * line_height_of (loadedFont sampleEnv) :=
  C6_label_only_wrap_layout sampleEnv ⟨96, 96⟩ "git" "blue" "white" rfl rfl
    (by decide) (by decide)

/-- Claim C8: the renderer is deterministic and depends only on what it
reads: two environments with the same loaded font, the same wrap function,
the same icon-file contents and the same initialization status produce
byte-identical native pixel buffers for the same KeyConfig and key format,
whatever the other module globals hold. -/
theorem C8_render_deterministic (env1 env2 : RenderEnv) (fmt : KeyFormat)
    (key : Nat) (label icon : Option String) (color labelcolor : String)
    (hfd : env1.FONT_DIR.isSome = env2.FONT_DIR.isSome)
    (hid : env1.ICONS_DIR.isSome = env2.ICONS_DIR.isSome)
    (hfont : loadedFont env1 = loadedFont env2)
    (hwrap : env1.wrap = env2.wrap)
    (hicons : env1.iconFiles = env2.iconFiles) :
    render_keys env1 fmt key label icon color labelcolor =
      render_keys env2 fmt key label icon color labelcolor := by
  have hfn : env1.FONT_DIR.isNone = env2.FONT_DIR.isNone := by
    cases h1 : env1.FONT_DIR <;> cases h2 : env2.FONT_DIR <;> simp_all
  have hin : env1.ICONS_DIR.isNone = env2.ICONS_DIR.isNone := by
    cases h1 : env1.ICONS_DIR <;> cases h2 : env2.ICONS_DIR <;> simp_all
  unfold render_keys render_keys_image
  rw [hfn, hin, hfont, hwrap, hicons]

/-- Witness for C8: sampleEnv and sampleEnvB differ in every global the
renderer does not read, yet render the same buffer. -/
theorem C8_render_deterministic_witness :
    loadedFont sampleEnv = loadedFont sampleEnvB ∧
      render_keys sampleEnv ⟨96, 96⟩ 0 (some "git") (some "back.png")
          "black" "white" =
        render_keys sampleEnvB ⟨96, 96⟩ 0 (some "git") (some "back.png")
          "black" "white" :=
  ⟨rfl, C8_render_deterministic sampleEnv sampleEnvB ⟨96, 96⟩ 0 (some "git")
    (some "back.png") "black" "white" rfl rfl rfl rfl rfl⟩

/-- Any action invocation either leaves the controller state unchanged or
writes a current-layout name it has first found in the layouts table: the
switch wrapper is the only writer and it checks membership first. -/
theorem invokeAction_state_cases (env : RenderEnv) (st : LogicState)
    (a : Action) :
    (invokeAction env st a).state = st ∨
      ∃ reg name, st.layouts = some reg ∧ (reg.lookup name).isSome ∧
        (invokeAction env st a).state =
          { st with current_layout := some name } := by
  cases a with
  | external t r => cases r <;> exact Or.inl rfl
  | switchTo n =>
    cases hl : st.layouts with
    | none => exact Or.inl (by simp [invokeAction, hl])
    | some reg =>
      cases he : reg.isEmpty with
      | true => exact Or.inl (by simp [invokeAction, hl, he])
      | false =>
        cases hf : reg.lookup n with
        | none => exact Or.inl (by simp [invokeAction, hl, he, hf])
        | some layout =>
          exact Or.inr ⟨reg, n, rfl, by simp [hf],
            by simp [invokeAction, hl, he, hf]⟩

/-- Dispatching one event either leaves the controller state unchanged or
writes a current-layout name bound in the layouts table. -/
theorem key_change_state_cases (env : RenderEnv) (st : LogicState)
    (k : Nat) (s : Bool) :
    (key_change env st k s).state = st ∨
      ∃ reg name, st.layouts = some reg ∧ (reg.lookup name).isSome ∧
        (key_change env st k s).state =
          { st with current_layout := some name } := by
  cases s with
  | false => exact Or.inl rfl
  | true =>
    cases hl : st.layouts with
    | none => exact Or.inl (by simp [key_change, hl])
    | some reg =>
      cases he : reg.isEmpty with
      | true => exact Or.inl (by simp [key_change, hl, he])
      | false =>
        cases hc : st.current_layout with
        | none => exact Or.inl (by simp [key_change, hl, he, hc])
        | some cl =>
          cases hce : cl.isEmpty with
          | true => exact Or.inl (by simp [key_change, hl, he, hc, hce])
          | false =>
            cases hf : reg.lookup cl with
            | none => exact Or.inl (by simp [key_change, hl, he, hc, hce, hf])
            | some layout =>
              cases hlk : layout.lookup k with
              | none =>
                exact Or.inl (by simp [key_change, hl, he, hc, hce, hf, hlk])
              | some config =>
                cases ha : config.action with
                | none =>
                  exact Or.inl
                    (by simp [key_change, hl, he, hc, hce, hf, hlk, ha])
                | some a =>
                  have hres : (key_change env st k true).state =
                      (invokeAction env st a).state := by
                    simp [key_change, hl, he, hc, hce, hf, hlk, ha]
                  rcases invokeAction_state_cases env st a with
                    h | ⟨reg2, name, h1, h2, h3⟩
                  · exact Or.inl (hres.trans h)
                  · rw [hl] at h1 h3
                    exact Or.inr ⟨reg2, name, h1, h2, hres.trans h3⟩

/-- One dispatched event preserves the C9 invariant. -/
theorem goodState_dispatchStep (env : RenderEnv) (reg : Registry)
    (st : LogicState) (ev : Nat × Bool) (h : GoodState reg st) :
    GoodState reg (dispatchStep env st ev) := by
  obtain ⟨hlay, cl, hcl, hsome⟩ := h
  rcases key_change_state_cases env st ev.1 ev.2 with heq | ⟨reg2, name, h1, h2, h3⟩
  · exact ⟨by rw [dispatchStep, heq, hlay], cl, by rw [dispatchStep, heq, hcl],
      hsome⟩
  · rw [hlay] at h1
    injection h1 with h1e
    subst h1e
    exact ⟨by rw [dispatchStep, h3]; exact hlay, name,
      by rw [dispatchStep, h3], h2⟩

/-- Any sequence of dispatched events preserves the C9 invariant. -/
theorem goodState_runEvents (env : RenderEnv) (reg : Registry)
    (st : LogicState) (evs : List (Nat × Bool)) (h : GoodState reg st) :
    GoodState reg (runEvents env st evs) := by
  induction evs generalizing st with
  | nil => exact h
  | cons e rest ih => exact ih _ (goodState_dispatchStep env reg st e h)

/-- Under the C9 invariant, dispatch never raises: the guard lookup of the
current layout in the table cannot fail. -/
theorem key_change_no_raise (env : RenderEnv) (reg : Registry)
    (st : LogicState) (k : Nat) (s : Bool) (h : GoodState reg st) :
    (key_change env st k s).exn = none := by
  obtain ⟨hlay, cl, hcl, hsome⟩ := h
  cases s with
  | false => rfl
  | true =>
    cases he : reg.isEmpty with
    | true => simp [key_change, hlay, he]
    | false =>
      cases hce : cl.isEmpty with
      | true => simp [key_change, hlay, he, hcl, hce]
      | false =>
        obtain ⟨layout, hf⟩ := Option.isSome_iff_exists.mp hsome
        cases hlk : layout.lookup k with
        | none => simp [key_change, hlay, he, hcl, hce, hf, hlk]
        | some config =>
          cases ha : config.action with
          | none => simp [key_change, hlay, he, hcl, hce, hf, hlk, ha]
          | some a => simp [key_change, hlay, he, hcl, hce, hf, hlk, ha]

/-- Claim C9: if the dispatcher is initialized with an initial layout name
bound in the layouts table, then after every sequence of dispatched key
events the current layout name is still bound in the (unchanged) table,
because the switch wrapper only assigns names it has first checked for
membership; consequently the guard lookup of the current layout never
fails, so no dispatch in any reachable state lets an exception escape. -/
theorem C9_current_layout_invariant (env : RenderEnv)
    (deckI : Option DeckState) (reg : Registry) (init : String)
    (evs : List (Nat × Bool)) (hinit : (reg.lookup init).isSome) :
    GoodState reg (runEvents env (initialize_logic deckI reg init) evs) ∧
      ∀ k s, (key_change env
          (runEvents env (initialize_logic deckI reg init) evs) k s).exn =
        none := by
  have h0 : GoodState reg (initialize_logic deckI reg init) :=
    ⟨rfl, init, rfl, hinit⟩
  have h1 := goodState_runEvents env reg _ evs h0
  exact ⟨h1, fun k s => key_change_no_raise env reg _ k s h1⟩

/-- Witness for C9: a registry whose key 0 switches to the layout other;
after a press on key 0, a release, and a press on an unbound key, the
current layout is still bound and dispatch never raises. -/
theorem C9_current_layout_invariant_witness :
    (([("main", [(0, { action := some (switch_layout "other") })]),
        ("other", ([] : Layout))] : Registry).lookup "main").isSome ∧
      (GoodState [("main", [(0, { action := some (switch_layout "other") })]),
          ("other", [])]
        (runEvents sampleEnv
          (initialize_logic none
            [("main", [(0, { action := some (switch_layout "other") })]),
              ("other", [])] "main")
          [(0, true), (5, false), (1, true)]) ∧
        ∀ k s, (key_change sampleEnv
            (runEvents sampleEnv
              (initialize_logic none
                [("main", [(0, { action := some (switch_layout "other") })]),
                  ("other", [])] "main")
              [(0, true), (5, false), (1, true)]) k s).exn = none) :=
  ⟨by decide, C9_current_layout_invariant sampleEnv none
    [("main", [(0, { action := some (switch_layout "other") })]),
      ("other", [])] "main" [(0, true), (5, false), (1, true)] (by decide)⟩

end Jarvis
